import Mathlib

/-!
Shallow embedding of the Flashspan client-side session controller.

The source of the model is the Solid/Tauri frontend:
  * `src/src/App.tsx`   — the current controller (signals, event handlers,
    `start`, `stop`, `validateTypedAnswer`, `parseUserSum`, …);
  * `src/unnamed/part_002` — the versioned-protocol draft of the same
    controller (its `onAutoRepeatTick` handler and
    `applyStartSessionResponse` are modelled in namespace `V2`);
  * `src/src/tauri.ts` / `src/unnamed/part_001` — payload shapes.

Modelling conventions:
  * JS numbers that the code treats as integers (session ids, sums,
    milliseconds, counts) are modelled as `Int`; the code never exercises
    fractional or out-of-double-range values on the paths modelled here.
  * Asynchronous backend calls are modelled by passing the call's outcome
    as an explicit parameter; each operation returns the new local state
    together with the list of external actions it issued, so "the command
    was never sent" and "fullscreen exit was attempted" are observable.
  * Solid signals are fields of a single state record; a handler is a
    function `AppState → AppState × List ExtAction`.
-/

namespace Flashspan

/-- Phase : "idle" | "starting" | "countdown" | "flashing" | "complete"
(src/src/tauri.ts line 23). -/
inductive Phase where
  | idle
  | starting
  | countdown
  | flashing
  | complete
deriving DecidableEq, Repr

/-- ShowNumber payload (src/src/tauri.ts lines 74-81); `emitted_at_ms` is
unused by the handlers and omitted. -/
structure ShowNumberPayload where
  session_id : Int
  index : Int
  total : Int
  value : Int
  running_sum : Int
deriving DecidableEq, Repr

/-- SessionComplete payload (src/src/tauri.ts lines 89-93). -/
structure SessionCompletePayload where
  session_id : Int
  numbers : List Int
  sum : Int
deriving DecidableEq, Repr

/-- AutoRepeatWaitingPayload (src/src/tauri.ts lines 95-99). -/
structure AutoRepeatWaitingPayload where
  session_id : Int
  next_start_at_ms : Int
  remaining : Int
deriving DecidableEq, Repr

/-- AutoRepeatTickPayload (src/src/tauri.ts lines 101-105). -/
structure AutoRepeatTickPayload where
  session_id : Int
  seconds_left : Int
  remaining : Int
deriving DecidableEq, Repr

/-- ValidationResult (src/src/tauri.ts lines 107-112). -/
structure ValidationResult where
  expected_sum : Int
  provided_sum : Int
  correct : Bool
  delta : Int
deriving DecidableEq, Repr

/-- SubmitAnswerResponse (src/src/tauri.ts lines 114-117). -/
structure SubmitAnswerResponse where
  validation : ValidationResult
  auto_repeat_waiting : Option AutoRepeatWaitingPayload
deriving DecidableEq, Repr

/-- External actions an operation can issue: best-effort fullscreen toggles
(`setFullscreen`), the bounded enter-and-confirm attempt
(`forceFullscreenBeforeStart`), and backend commands. -/
inductive ExtAction where
  | fullscreenSet (enabled : Bool)
  | fullscreenForce
  | cmdStartSession
  | cmdStopSession
  | cmdSubmitAnswer (sid provided : Int)
deriving DecidableEq, Repr

/-! ### String parsing helpers (src/src/App.tsx lines 111-140) -/

/-- JS `String.prototype.trim()`: drop whitespace from both ends,
modelled over the character list. -/
def jsTrim (str : String) : String :=
  String.mk
    (((str.data.dropWhile Char.isWhitespace).reverse.dropWhile Char.isWhitespace).reverse)

/-- `.replace(/,/g, "")`: remove every comma (the replace is global). -/
def stripCommas (str : String) : String :=
  String.mk (str.data.filter (fun c => c ≠ ','))

/-- Test of the strict-integer regex `^[+-]?\d+$` on a list of characters:
an optional single leading sign followed by one or more ASCII digits. -/
def isStrictIntChars : List Char → Bool
  | [] => false
  | c :: cs =>
    if c = '+' || c = '-' then !cs.isEmpty && cs.all Char.isDigit
    else (c :: cs).all Char.isDigit

/-- Test of the code's regex `/^[+-]?\d+$/` (src/src/App.tsx line 137). -/
def isStrictInt (str : String) : Bool :=
  isStrictIntChars str.data

/-- Value of a string of ASCII digits, most significant first. -/
def digitsToNat (cs : List Char) : Nat :=
  cs.foldl (fun acc c => acc * 10 + (c.toNat - Char.toNat '0')) 0

/-- Numeric value of a string already known to match `^[+-]?\d+$`
(`Number.parseInt(cleaned, 10)` on such a string). -/
def parseStrictInt (str : String) : Int :=
  match str.data with
  | '-' :: cs => - (digitsToNat cs : Int)
  | '+' :: cs => (digitsToNat cs : Int)
  | cs => (digitsToNat cs : Int)

/-- parseUserSum (src/src/App.tsx lines 134-140): trim, strip commas,
reject the empty string, test the strict integer regex, then parse.
The code's final `Number.isFinite` guard only fails for digit strings
past the double range (about 10^308), which is outside the scope of
this integer model, so the parse of a matching string always succeeds. -/
def parseUserSum (raw : String) : Option Int :=
  let cleaned := stripCommas (jsTrim raw)
  if cleaned = "" then none
  else if !isStrictInt cleaned then none
  else some (parseStrictInt cleaned)

/-- JS `Number.parseInt(s, 10)` on a pre-trimmed string: optional sign,
then the longest prefix of digits; NaN (here `none`) if there is none. -/
def parseIntLoose (str : String) : Option Int :=
  match str.data with
  | '-' :: cs =>
    let ds := cs.takeWhile Char.isDigit
    if ds.isEmpty then none else some (-(digitsToNat ds : Int))
  | '+' :: cs =>
    let ds := cs.takeWhile Char.isDigit
    if ds.isEmpty then none else some (digitsToNat ds : Int)
  | cs =>
    let ds := cs.takeWhile Char.isDigit
    if ds.isEmpty then none else some (digitsToNat ds : Int)

/-- sumCapturedNumbers (src/src/App.tsx lines 124-132): parse each trimmed
entry with `parseInt`, skip non-finite results, sum the rest. -/
def sumCapturedNumbers (values : List String) : Int :=
  values.foldl
    (fun total raw =>
      match parseIntLoose (jsTrim raw) with
      | none => total
      | some n => total + n)
    0

/-- clampInt (src/src/App.tsx lines 111-115) applied to an integer input:
`Math.max(min, Math.min(max, n))`. -/
def clampInt (n lo hi : Int) : Int :=
  max lo (min hi n)

/-! ### Controller state (src/src/App.tsx lines 69-107)

Each field is one of the component's signals (or the `capturedNumbers`
mutable array, or the `gotCompleteV2` flag closed over in `onMount`).
The duration and delay are carried in milliseconds, the value
`Math.round(seconds * 1000)` that `start` derives from the seconds
signal and that the config guard tests. -/
structure AppState where
  displayText : String
  phase : Phase
  errorText : String
  showAnswer : Bool
  answerText : String
  typedAnswer : String
  validationSummary : String
  showNumbersList : Bool
  hasValidated : Bool
  answerSum : Int
  sessionId : Option Int
  numbers : List Int
  capturedNumbers : List String
  gotCompleteV2 : Bool
  autoRepeatEnabled : Bool
  autoRepeatCount : Int
  autoRepeatDelaySeconds : Int
  autoRepeatRemaining : Int
  autoRepeatNextStartAtMs : Option Int
  autoRepeatSecondsLeft : Option Int
  showAdvanced : Bool
  countdownTickId : Nat
  digitsPerNumber : Int
  numberDurationMs : Int
  delayBetweenNumbersMs : Int
  totalNumbers : Int
  allowNegativeNumbers : Bool
deriving DecidableEq, Repr

/-- Initial signal values (src/src/App.tsx lines 69-105): phase "idle",
digits 1, duration 0.5 s (500 ms), delay 0, total 5. -/
def idleState : AppState where
  displayText := ""
  phase := Phase.idle
  errorText := ""
  showAnswer := false
  answerText := ""
  typedAnswer := ""
  validationSummary := ""
  showNumbersList := false
  hasValidated := false
  answerSum := 0
  sessionId := none
  numbers := []
  capturedNumbers := []
  gotCompleteV2 := false
  autoRepeatEnabled := false
  autoRepeatCount := 5
  autoRepeatDelaySeconds := 5
  autoRepeatRemaining := 0
  autoRepeatNextStartAtMs := none
  autoRepeatSecondsLeft := none
  showAdvanced := false
  countdownTickId := 0
  digitsPerNumber := 1
  numberDurationMs := 500
  delayBetweenNumbersMs := 0
  totalNumbers := 5
  allowNegativeNumbers := false

/-! ### Event handlers (src/src/App.tsx lines 142-336) -/

/-- resetForIncomingSessionIfComplete (src/src/App.tsx lines 142-154). -/
def resetForIncomingSessionIfComplete (s : AppState) : AppState :=
  if s.phase = Phase.complete then
    { s with
      showAnswer := false
      answerText := ""
      answerSum := 0
      typedAnswer := ""
      validationSummary := ""
      showNumbersList := false
      hasValidated := false
      autoRepeatNextStartAtMs := none
      autoRepeatSecondsLeft := none
      capturedNumbers := [] }
  else s

/-- applyAutoRepeatWaiting (src/src/App.tsx lines 174-177). -/
def applyAutoRepeatWaiting (p : AutoRepeatWaitingPayload) (s : AppState) : AppState :=
  { s with
    autoRepeatRemaining := p.remaining
    autoRepeatNextStartAtMs := some p.next_start_at_ms }

/-- onCountdownTick handler (src/src/App.tsx lines 251-257). -/
def onCountdownTick (value : String) (s : AppState) : AppState × List ExtAction :=
  let s := resetForIncomingSessionIfComplete s
  ({ s with
      phase := Phase.countdown
      displayText := value
      countdownTickId := s.countdownTickId + 1 },
   [ExtAction.fullscreenSet true])

/-- onShowNumberV2 handler (src/src/App.tsx lines 259-265). -/
def onShowNumberV2 (p : ShowNumberPayload) (s : AppState) : AppState × List ExtAction :=
  let s := resetForIncomingSessionIfComplete s
  ({ s with
      sessionId := some p.session_id
      phase := Phase.flashing
      displayText := toString p.value },
   [ExtAction.fullscreenSet true])

/-- onShowNumberLegacy handler (src/src/App.tsx lines 267-273). -/
def onShowNumberLegacy (value : String) (s : AppState) : AppState × List ExtAction :=
  let s := resetForIncomingSessionIfComplete s
  ({ s with
      phase := Phase.flashing
      capturedNumbers := s.capturedNumbers ++ [value]
      displayText := value },
   [ExtAction.fullscreenSet true])

/-- onClearScreen handler (src/src/App.tsx lines 275-277). -/
def onClearScreen (s : AppState) : AppState × List ExtAction :=
  ({ s with displayText := "" }, [])

/-- onAutoRepeatWaiting handler (src/src/App.tsx lines 279-282). -/
def onAutoRepeatWaitingEv (p : AutoRepeatWaitingPayload) (s : AppState) :
    AppState × List ExtAction :=
  if !s.autoRepeatEnabled then (s, [])
  else (applyAutoRepeatWaiting p s, [])

/-- onSessionCompleteV2 handler (src/src/App.tsx lines 284-300). -/
def onSessionCompleteV2 (p : SessionCompletePayload) (s : AppState) :
    AppState × List ExtAction :=
  ({ s with
      gotCompleteV2 := true
      phase := Phase.complete
      displayText := ""
      showAnswer := false
      numbers := p.numbers
      answerText := String.intercalate "\n" (p.numbers.map toString)
      answerSum := p.sum
      typedAnswer := ""
      validationSummary := ""
      showNumbersList := false
      hasValidated := false
      autoRepeatNextStartAtMs := none
      autoRepeatSecondsLeft := none
      sessionId := some p.session_id },
   [ExtAction.fullscreenSet false])

/-- onSessionCompleteLegacy handler (src/src/App.tsx lines 302-316):
ignored entirely once a v2 complete event has been observed. -/
def onSessionCompleteLegacy (s : AppState) : AppState × List ExtAction :=
  if s.gotCompleteV2 then (s, [])
  else
    ({ s with
        phase := Phase.complete
        displayText := ""
        showAnswer := false
        answerText := String.intercalate "\n" s.capturedNumbers
        answerSum := sumCapturedNumbers s.capturedNumbers
        typedAnswer := ""
        validationSummary := ""
        showNumbersList := false
        hasValidated := false
        autoRepeatNextStartAtMs := none
        autoRepeatSecondsLeft := none },
     [ExtAction.fullscreenSet false])

/-- Incoming push events dispatched by the `onMount` listeners. -/
inductive Event where
  | countdownTick (value : String)
  | showNumberV2 (p : ShowNumberPayload)
  | showNumberLegacy (value : String)
  | clearScreen
  | autoRepeatWaiting (p : AutoRepeatWaitingPayload)
  | sessionCompleteV2 (p : SessionCompletePayload)
  | sessionCompleteLegacy
deriving DecidableEq, Repr

/-- Dispatch of one incoming event to its handler. -/
def handleEvent : Event → AppState → AppState × List ExtAction
  | Event.countdownTick v, s => onCountdownTick v s
  | Event.showNumberV2 p, s => onShowNumberV2 p s
  | Event.showNumberLegacy v, s => onShowNumberLegacy v s
  | Event.clearScreen, s => onClearScreen s
  | Event.autoRepeatWaiting p, s => onAutoRepeatWaitingEv p s
  | Event.sessionCompleteV2 p, s => onSessionCompleteV2 p s
  | Event.sessionCompleteLegacy, s => onSessionCompleteLegacy s

/-! ### Operations: submit, start, stop (src/src/App.tsx lines 203-420) -/

/-- Outcome of the awaited `submitAnswer` backend call: the resolved
response, or the rejection rendered as `String(e)`. -/
inductive SubmitOutcome where
  | ok (resp : SubmitAnswerResponse)
  | err (msg : String)
deriving DecidableEq, Repr

/-- applySubmitAnswerResponse (src/src/App.tsx lines 203-223). -/
def applySubmitAnswerResponse (resp : SubmitAnswerResponse) (s : AppState) : AppState :=
  let v := resp.validation
  let lines :=
    [if v.correct then "Correct ✅" else "Incorrect",
     "Expected answer: " ++ toString v.expected_sum,
     "You entered: " ++ toString v.provided_sum]
  let lines :=
    if v.correct then lines
    else lines ++ ["Difference: " ++ (if v.delta > 0 then "+" else "") ++ toString v.delta]
  let s := { s with validationSummary := String.intercalate "\n" lines }
  match resp.auto_repeat_waiting with
  | some w => applyAutoRepeatWaiting w s
  | none => s

/-- validateTypedAnswer (src/src/App.tsx lines 225-246). The parse runs
first; `setHasValidated(true)` runs before the session-id check, then the
backend call is issued only when a session id exists. -/
def validateTypedAnswer (outcome : SubmitOutcome) (s : AppState) :
    AppState × List ExtAction :=
  match parseUserSum s.typedAnswer with
  | none =>
    ({ s with validationSummary := "Enter a single integer answer (e.g. 42 or -17).\n" }, [])
  | some provided =>
    let s := { s with hasValidated := true }
    match s.sessionId with
    | none => ({ s with validationSummary := "No active session id to validate." }, [])
    | some sid =>
      match outcome with
      | SubmitOutcome.ok resp =>
        (applySubmitAnswerResponse resp s, [ExtAction.cmdSubmitAnswer sid provided])
      | SubmitOutcome.err msg =>
        ({ s with validationSummary := msg }, [ExtAction.cmdSubmitAnswer sid provided])

/-- Outcome of the two awaited calls inside `start`'s try block:
`forceFullscreenBeforeStart` threw, `startSessionV2` rejected, or
`startSessionV2` resolved with a session id. -/
inductive StartOutcome where
  | fullscreenFailed (msg : String)
  | cmdFailed (msg : String)
  | ok (sid : Int)
deriving DecidableEq, Repr

/-- Synchronous reset prefix of `start` (src/src/App.tsx lines 339-355). -/
def startReset (s : AppState) : AppState :=
  { s with
    errorText := ""
    showAdvanced := false
    showAnswer := false
    answerText := ""
    answerSum := 0
    typedAnswer := ""
    validationSummary := ""
    showNumbersList := false
    hasValidated := false
    autoRepeatNextStartAtMs := none
    autoRepeatSecondsLeft := none
    sessionId := none
    numbers := []
    capturedNumbers := [] }

/-- Config guard of `start` (src/src/App.tsx line 365): the config fields
of the reset state (the reset does not touch them). -/
def startGuardFails (s : AppState) : Bool :=
  s.digitsPerNumber ≤ 0 || s.numberDurationMs ≤ 0 || s.totalNumbers ≤ 0

/-- Local state at the moment `startSessionV2` is awaited: reset applied,
guard passed, phase "starting", display cleared, auto-repeat budget set
(src/src/App.tsx lines 370-380). -/
def startIssue (s : AppState) : AppState :=
  let s := startReset s
  { s with
    phase := Phase.starting
    displayText := ""
    autoRepeatRemaining :=
      if s.autoRepeatEnabled then clampInt s.autoRepeatCount 1 20 else 0 }

/-- Effect of the resolved start response on local state (src/src/App.tsx
line 391): just `setSessionId(sid)` — phase is untouched and no
still-relevant check is performed. -/
def applyStartResponse (sid : Int) (s : AppState) : AppState :=
  { s with sessionId := some sid }

/-- start (src/src/App.tsx lines 338-397), as the uninterrupted run for a
given environment outcome. -/
def start (outcome : StartOutcome) (s : AppState) : AppState × List ExtAction :=
  if startGuardFails (startReset s) then
    ({ startReset s with errorText := "Digits, duration, and total numbers must be > 0" }, [])
  else
    let s := startIssue s
    match outcome with
    | StartOutcome.fullscreenFailed msg =>
      ({ s with phase := Phase.idle, errorText := msg },
       [ExtAction.fullscreenForce, ExtAction.fullscreenSet false])
    | StartOutcome.cmdFailed msg =>
      ({ s with phase := Phase.idle, errorText := msg },
       [ExtAction.fullscreenForce, ExtAction.cmdStartSession,
        ExtAction.fullscreenSet false])
    | StartOutcome.ok sid =>
      (applyStartResponse sid s,
       [ExtAction.fullscreenForce, ExtAction.cmdStartSession])

/-- stop (src/src/App.tsx lines 399-420): the stop command is always
issued, and the local reset runs in the `finally` block, so it is the
same whether the backend call resolved or rejected — `rejected` is
deliberately unread. -/
def stop (rejected : Bool) (s : AppState) : AppState × List ExtAction :=
  ({ s with
      phase := Phase.idle
      displayText := ""
      showAnswer := false
      answerText := ""
      answerSum := 0
      typedAnswer := ""
      validationSummary := ""
      showNumbersList := false
      hasValidated := false
      autoRepeatRemaining := 0
      autoRepeatNextStartAtMs := none
      autoRepeatSecondsLeft := none
      sessionId := none
      numbers := []
      capturedNumbers := [] },
   [ExtAction.cmdStopSession, ExtAction.fullscreenSet false])

/-! ### The versioned-protocol controller draft (src/unnamed/part_002)

This draft consumes the typed protocol of src/unnamed/part_001: numbers
arrive as `show_number` payloads, completion as a `session_complete`
payload, and the auto-repeat countdown is driven by `auto_repeat_tick`
events — its `applyAutoRepeatWaiting` clears `autoRepeatSecondsLeft`
("seconds are driven from Rust tick events") instead of starting a local
countdown, and there is no local seconds-left timer at all. -/

namespace V2

/-- effective_config of a start response (src/unnamed/part_001 lines
29-35); the seconds fields are carried as integral values, the draft does
no arithmetic on them. -/
structure SessionConfigEffective where
  digits_per_number : Int
  number_duration_s : Int
  delay_between_numbers_s : Int
  total_numbers : Int
  allow_negative_numbers : Bool
deriving DecidableEq, Repr

/-- effective_auto_repeat of a start response (src/unnamed/part_001 lines
43-47). -/
structure AutoRepeatEffective where
  enabled : Bool
  repeats : Int
  delay_s : Int
deriving DecidableEq, Repr

/-- StartSessionResponse (src/unnamed/part_001 lines 49-53). -/
structure StartSessionResponse where
  session_id : Int
  effective_config : SessionConfigEffective
  effective_auto_repeat : Option AutoRepeatEffective
deriving DecidableEq, Repr

/-- Signals of the part_002 controller (lines 128-207); unlike App.tsx it
has no `autoRepeatNextStartAtMs`, no `capturedNumbers` and no legacy
handlers. -/
structure St where
  displayText : String
  phase : Flashspan.Phase
  errorText : String
  showAnswer : Bool
  answerText : String
  typedAnswer : String
  validationSummary : String
  showNumbersList : Bool
  hasValidated : Bool
  answerSum : Int
  sessionId : Option Int
  numbers : List Int
  autoRepeatEnabled : Bool
  autoRepeatCount : Int
  autoRepeatDelaySeconds : Int
  autoRepeatRemaining : Int
  autoRepeatSecondsLeft : Option Int
  showAdvanced : Bool
  countdownTickId : Nat
  digitsPerNumber : Int
  numberDurationS : Int
  delayBetweenNumbersS : Int
  totalNumbers : Int
  allowNegativeNumbers : Bool
deriving DecidableEq, Repr

/-- Initial signal values of the part_002 controller. -/
def init : St where
  displayText := ""
  phase := Flashspan.Phase.idle
  errorText := ""
  showAnswer := false
  answerText := ""
  typedAnswer := ""
  validationSummary := ""
  showNumbersList := false
  hasValidated := false
  answerSum := 0
  sessionId := none
  numbers := []
  autoRepeatEnabled := false
  autoRepeatCount := 5
  autoRepeatDelaySeconds := 5
  autoRepeatRemaining := 0
  autoRepeatSecondsLeft := none
  showAdvanced := false
  countdownTickId := 0
  digitsPerNumber := 1
  numberDurationS := 1
  delayBetweenNumbersS := 0
  totalNumbers := 5
  allowNegativeNumbers := false

/-- resetForIncomingSessionIfComplete (src/unnamed/part_002 lines
213-223). -/
def resetForIncomingSessionIfComplete (s : St) : St :=
  if s.phase = Flashspan.Phase.complete then
    { s with
      showAnswer := false
      answerText := ""
      answerSum := 0
      typedAnswer := ""
      validationSummary := ""
      showNumbersList := false
      hasValidated := false
      autoRepeatSecondsLeft := none }
  else s

/-- applyAutoRepeatWaiting (src/unnamed/part_002 lines 241-245): stores
the remaining count and clears seconds-left — the countdown itself is
driven only by tick events. -/
def applyAutoRepeatWaiting (p : Flashspan.AutoRepeatWaitingPayload) (s : St) : St :=
  { s with
    autoRepeatRemaining := p.remaining
    autoRepeatSecondsLeft := none }

/-- applySubmitAnswerResponse (src/unnamed/part_002 lines 253-274); this
draft's summary has no "You entered" line. -/
def applySubmitAnswerResponse (resp : Flashspan.SubmitAnswerResponse) (s : St) : St :=
  let v := resp.validation
  let lines :=
    [if v.correct then "Correct ✅" else "Incorrect",
     "Expected answer: " ++ toString v.expected_sum]
  let lines :=
    if v.correct then lines
    else lines ++ ["Difference: " ++ (if v.delta > 0 then "+" else "") ++ toString v.delta]
  let s := { s with validationSummary := String.intercalate "\n" lines }
  match resp.auto_repeat_waiting with
  | some w => applyAutoRepeatWaiting w s
  | none => s

/-- validateTypedAnswer (src/unnamed/part_002 lines 276-291): session-id
check first; `hasValidated` is set true only after the backend call
resolves, and reset to false when it rejects. -/
def validateTypedAnswer (outcome : Flashspan.SubmitOutcome) (s : St) : St :=
  match s.sessionId with
  | none => { s with validationSummary := "No active session id to validate." }
  | some _ =>
    match outcome with
    | Flashspan.SubmitOutcome.ok resp =>
      applySubmitAnswerResponse resp { s with hasValidated := true }
    | Flashspan.SubmitOutcome.err msg =>
      { s with hasValidated := false, validationSummary := msg }

/-- onCountdownTick handler (src/unnamed/part_002 lines 308-314). -/
def onCountdownTick (value : String) (s : St) : St :=
  let s := resetForIncomingSessionIfComplete s
  { s with
    phase := Flashspan.Phase.countdown
    displayText := value
    countdownTickId := s.countdownTickId + 1 }

/-- onShowNumber handler (src/unnamed/part_002 lines 316-323). -/
def onShowNumber (p : Flashspan.ShowNumberPayload) (s : St) : St :=
  let s := resetForIncomingSessionIfComplete s
  { s with
    sessionId := some p.session_id
    phase := Flashspan.Phase.flashing
    displayText := toString p.value }

/-- onClearScreen handler (src/unnamed/part_002 lines 325-327). -/
def onClearScreen (s : St) : St :=
  { s with displayText := "" }

/-- onAutoRepeatWaiting handler (src/unnamed/part_002 lines 329-332). -/
def onAutoRepeatWaitingEv (p : Flashspan.AutoRepeatWaitingPayload) (s : St) : St :=
  if !s.autoRepeatEnabled then s
  else applyAutoRepeatWaiting p s

/-- onAutoRepeatTick handler (src/unnamed/part_002 lines 334-338): the
only writer of a numeric seconds-left. -/
def onAutoRepeatTick (p : Flashspan.AutoRepeatTickPayload) (s : St) : St :=
  if !s.autoRepeatEnabled then s
  else
    { s with
      autoRepeatRemaining := p.remaining
      autoRepeatSecondsLeft := some p.seconds_left }

/-- onSessionComplete handler (src/unnamed/part_002 lines 347-361). -/
def onSessionComplete (p : Flashspan.SessionCompletePayload) (s : St) : St :=
  { s with
    phase := Flashspan.Phase.complete
    displayText := ""
    showAnswer := false
    numbers := p.numbers
    answerText := String.intercalate "\n" (p.numbers.map toString)
    answerSum := p.sum
    typedAnswer := ""
    validationSummary := ""
    showNumbersList := false
    hasValidated := false
    autoRepeatSecondsLeft := none
    sessionId := some p.session_id }

/-- applyStartSessionResponse (src/unnamed/part_002 lines 383-395):
applied unconditionally when the start call resolves, with no check that
phase or session id are unchanged since the call was issued. -/
def applyStartSessionResponse (resp : StartSessionResponse) (s : St) : St :=
  let s :=
    { s with
      sessionId := some resp.session_id
      digitsPerNumber := resp.effective_config.digits_per_number
      numberDurationS := resp.effective_config.number_duration_s
      delayBetweenNumbersS := resp.effective_config.delay_between_numbers_s
      totalNumbers := resp.effective_config.total_numbers
      allowNegativeNumbers := resp.effective_config.allow_negative_numbers }
  match resp.effective_auto_repeat with
  | some ar =>
    { s with
      autoRepeatCount := ar.repeats
      autoRepeatDelaySeconds := ar.delay_s }
  | none => s

/-- Outcome of the awaited calls inside part_002's `start`. -/
inductive StartOutcome where
  | fullscreenFailed (msg : String)
  | cmdFailed (msg : String)
  | ok (resp : StartSessionResponse)
deriving DecidableEq, Repr

/-- start (src/unnamed/part_002 lines 397-445); this draft has no config
guard. -/
def start (outcome : StartOutcome) (s : St) : St :=
  let s :=
    { s with
      errorText := ""
      showAdvanced := false
      showAnswer := false
      answerText := ""
      answerSum := 0
      typedAnswer := ""
      validationSummary := ""
      showNumbersList := false
      hasValidated := false
      autoRepeatSecondsLeft := none
      sessionId := none
      numbers := [] }
  let s :=
    { s with
      phase := Flashspan.Phase.starting
      displayText := ""
      autoRepeatRemaining := if s.autoRepeatEnabled then s.autoRepeatCount else 0 }
  match outcome with
  | StartOutcome.fullscreenFailed msg =>
    { s with phase := Flashspan.Phase.idle, errorText := msg }
  | StartOutcome.cmdFailed msg =>
    { s with phase := Flashspan.Phase.idle, errorText := msg }
  | StartOutcome.ok resp => applyStartSessionResponse resp s

/-- stop (src/unnamed/part_002 lines 447-466); the local reset is in the
`finally` block. -/
def stop (rejected : Bool) (s : St) : St :=
  { s with
    phase := Flashspan.Phase.idle
    displayText := ""
    showAnswer := false
    answerText := ""
    answerSum := 0
    typedAnswer := ""
    validationSummary := ""
    showNumbersList := false
    hasValidated := false
    autoRepeatRemaining := 0
    autoRepeatSecondsLeft := none
    sessionId := none
    numbers := [] }

/-- Reveal-mode "Show answer" click (src/unnamed/part_002 lines 987-999):
flags are set, then `acknowledgeComplete` is awaited when a session id
exists; `w` is its (optional) auto-repeat-waiting response, errors are
swallowed. -/
def acknowledge (w : Option Flashspan.AutoRepeatWaitingPayload) (s : St) : St :=
  let s2 := { s with hasValidated := true, showAnswer := true }
  if s.sessionId.isSome then
    match w with
    | some p => applyAutoRepeatWaiting p s2
    | none => s2
  else s2

/-- Auto-repeat "Off" radio handler (src/unnamed/part_002 lines 521-526). -/
def autoRepeatOff (s : St) : St :=
  { s with
    autoRepeatEnabled := false
    autoRepeatRemaining := 0
    autoRepeatSecondsLeft := none }

/-- Auto-repeat "On" radio handler (src/unnamed/part_002 line 538). -/
def autoRepeatOn (s : St) : St :=
  { s with autoRepeatEnabled := true }

/-- goHome (src/unnamed/part_002 lines 225-239). -/
def goHome (s : St) : St :=
  { s with
    phase := Flashspan.Phase.idle
    displayText := ""
    showAnswer := false
    answerText := ""
    answerSum := 0
    typedAnswer := ""
    validationSummary := ""
    showNumbersList := false
    hasValidated := false
    autoRepeatRemaining := 0
    autoRepeatSecondsLeft := none
    sessionId := none
    numbers := [] }

/-- Every state transition of the part_002 controller: the six push-event
handlers and the user-driven operations. -/
inductive Step where
  | countdownTick (value : String)
  | showNumber (p : Flashspan.ShowNumberPayload)
  | clearScreen
  | autoRepeatWaiting (p : Flashspan.AutoRepeatWaitingPayload)
  | autoRepeatTick (p : Flashspan.AutoRepeatTickPayload)
  | sessionComplete (p : Flashspan.SessionCompletePayload)
  | startOp (o : StartOutcome)
  | stopOp (rejected : Bool)
  | validateOp (o : Flashspan.SubmitOutcome)
  | acknowledgeOp (w : Option Flashspan.AutoRepeatWaitingPayload)
  | autoRepeatOffOp
  | autoRepeatOnOp
  | goHomeOp
deriving DecidableEq, Repr

/-- Dispatch of one transition. -/
def step : Step → St → St
  | Step.countdownTick v, s => onCountdownTick v s
  | Step.showNumber p, s => onShowNumber p s
  | Step.clearScreen, s => onClearScreen s
  | Step.autoRepeatWaiting p, s => onAutoRepeatWaitingEv p s
  | Step.autoRepeatTick p, s => onAutoRepeatTick p s
  | Step.sessionComplete p, s => onSessionComplete p s
  | Step.startOp o, s => start o s
  | Step.stopOp r, s => stop r s
  | Step.validateOp o, s => validateTypedAnswer o s
  | Step.acknowledgeOp w, s => acknowledge w s
  | Step.autoRepeatOffOp, s => autoRepeatOff s
  | Step.autoRepeatOnOp, s => autoRepeatOn s
  | Step.goHomeOp, s => goHome s

end V2

/-! ### Claim-facing definitions -/

/-- Transition set claimed by the spec (§3): the cycle
idle→starting→countdown→flashing→complete→idle plus the cancellation
edges from starting, countdown and flashing to idle. -/
def allowedEdge : Phase → Phase → Bool
  | Phase.idle, Phase.starting => true
  | Phase.starting, Phase.countdown => true
  | Phase.countdown, Phase.flashing => true
  | Phase.flashing, Phase.complete => true
  | Phase.complete, Phase.idle => true
  | Phase.starting, Phase.idle => true
  | Phase.countdown, Phase.idle => true
  | Phase.flashing, Phase.idle => true
  | _, _ => false

/-- Phase each event handler actually drives the controller to, read off
the handlers: countdown_tick always sets countdown, both show-number
handlers always set flashing, clear_screen and auto_repeat_waiting leave
phase alone, the v2 complete handler always sets complete, and the legacy
complete handler sets complete unless a v2 complete was already seen. -/
def eventTargetPhase : Event → AppState → Phase
  | Event.countdownTick _, _ => Phase.countdown
  | Event.showNumberV2 _, _ => Phase.flashing
  | Event.showNumberLegacy _, _ => Phase.flashing
  | Event.clearScreen, s => s.phase
  | Event.autoRepeatWaiting _, s => s.phase
  | Event.sessionCompleteV2 _, _ => Phase.complete
  | Event.sessionCompleteLegacy, s =>
    if s.gotCompleteV2 then s.phase else Phase.complete

/-- Controller state in phase flashing mid-session, used as the concrete
input of several counterexamples and witnesses. -/
def flashingState : AppState :=
  { idleState with
    phase := Phase.flashing
    typedAnswer := "9"
    sessionId := some 3
    numbers := [4]
    hasValidated := true }

/-- Controller state in phase starting. -/
def startingState : AppState :=
  { idleState with
    phase := Phase.starting
    numbers := [1, 2]
    capturedNumbers := ["1", "2"] }

/-- Completed round with no session id recorded (the legacy completion
path never records one). -/
def noSessionState : AppState :=
  { idleState with
    phase := Phase.complete
    typedAnswer := "42"
    sessionId := none }

/-! ### C1 — phase transitions -/

/-- C1 counterexample: in phase idle a `countdown_tick` event is applied
as-is, moving phase to countdown — a transition outside the claimed set —
rather than leaving the phase unchanged. -/
theorem c1_cex_idle_countdown_applied :
    ¬ (allowedEdge idleState.phase
         ((handleEvent (Event.countdownTick "3") idleState).1).phase = true
       ∨ ((handleEvent (Event.countdownTick "3") idleState).1).phase
         = idleState.phase) := by
  decide

/-- C1 amended: the event handlers perform no transition check at all;
each one drives phase unconditionally to the phase its event denotes
(countdown_tick→countdown, show_number→flashing,
session_complete→complete, clear_screen and auto_repeat_waiting leave it
unchanged, a legacy complete is ignored after a v2 one), so an event
implying a transition outside the §3 set — such as idle→countdown — is
applied, not ignored. -/
theorem c1_amended_handlers_set_phase_unconditionally :
    ∀ (e : Event) (s : AppState),
      ((handleEvent e s).1).phase = eventTargetPhase e s := by
  intro e s
  cases e <;>
    simp [handleEvent, eventTargetPhase, onCountdownTick, onShowNumberV2,
      onShowNumberLegacy, onClearScreen, onAutoRepeatWaitingEv,
      onSessionCompleteV2, onSessionCompleteLegacy,
      resetForIncomingSessionIfComplete, applyAutoRepeatWaiting] <;>
    split <;> rfl

/-! ### C3 — stop -/

/-- C3: from starting, countdown or flashing, `stop` forces phase idle and
clears both captured-number lists, the stop command is always issued, and
the resulting state is a fixed point of `stop` — all independently of
whether the backend stop call rejected. -/
theorem c3_stop_idle_clears_idempotent :
    ∀ (s : AppState) (b : Bool),
      s.phase = Phase.starting ∨ s.phase = Phase.countdown ∨ s.phase = Phase.flashing →
      (stop b s).1.phase = Phase.idle
      ∧ (stop b s).1.numbers = []
      ∧ (stop b s).1.capturedNumbers = []
      ∧ ExtAction.cmdStopSession ∈ (stop b s).2
      ∧ ∀ b', stop b' ((stop b s).1) = stop b s := by
  intro s b _
  refine ⟨rfl, rfl, rfl, ?_, fun b' => rfl⟩
  simp [stop]

/-- C3 witness at a concrete starting-phase state. -/
theorem c3_witness :
    (stop true startingState).1.phase = Phase.idle
    ∧ (stop true startingState).1.numbers = []
    ∧ (stop true startingState).1.capturedNumbers = []
    ∧ ExtAction.cmdStopSession ∈ (stop true startingState).2
    ∧ ∀ b', stop b' ((stop true startingState).1) = stop true startingState :=
  c3_stop_idle_clears_idempotent startingState true (Or.inl rfl)

/-! ### C4 — session_complete is authoritative -/

/-- C4: the v2 session-complete handler adopts the event's numbers and sum
wholesale, whatever the controller had accumulated; for the payload with
numbers [12, -7, 5] and sum 10, the stored expected sum is 10. -/
theorem c4_session_complete_adopts_payload :
    ∀ (s : AppState) (p : SessionCompletePayload),
      ((onSessionCompleteV2 p s).1).answerSum = p.sum
      ∧ ((onSessionCompleteV2 p s).1).numbers = p.numbers
      ∧ ((onSessionCompleteV2 p s).1).phase = Phase.complete
      ∧ ((onSessionCompleteV2 (SessionCompletePayload.mk 9 [12, -7, 5] 10) s).1).answerSum = 10 :=
  fun _ _ => ⟨rfl, rfl, rfl, rfl⟩

/-! ### C5 — start failure paths -/

/-- C5: with a valid config, when the fullscreen enter-and-confirm step
fails `start` reverts phase to idle, records the error, attempts the
best-effort fullscreen exit and never issues the start command; when the
start command itself rejects, phase is likewise reverted to idle with the
error recorded (and the fullscreen exit attempted). -/
theorem c5_start_abort_paths :
    ∀ (s : AppState) (msg : String),
      0 < s.digitsPerNumber → 0 < s.numberDurationMs → 0 < s.totalNumbers →
      (start (StartOutcome.fullscreenFailed msg) s).1.phase = Phase.idle
      ∧ (start (StartOutcome.fullscreenFailed msg) s).1.errorText = msg
      ∧ ExtAction.cmdStartSession ∉ (start (StartOutcome.fullscreenFailed msg) s).2
      ∧ ExtAction.fullscreenSet false ∈ (start (StartOutcome.fullscreenFailed msg) s).2
      ∧ (start (StartOutcome.cmdFailed msg) s).1.phase = Phase.idle
      ∧ (start (StartOutcome.cmdFailed msg) s).1.errorText = msg
      ∧ ExtAction.fullscreenSet false ∈ (start (StartOutcome.cmdFailed msg) s).2 := by
  intro s msg h1 h2 h3
  have hg : startGuardFails (startReset s) = false := by
    simp [startGuardFails, startReset]
    omega
  simp [start, hg]

/-- C5 witness at the initial state with error text "boom". -/
theorem c5_witness :
    (start (StartOutcome.fullscreenFailed "boom") idleState).1.phase = Phase.idle
    ∧ (start (StartOutcome.fullscreenFailed "boom") idleState).1.errorText = "boom"
    ∧ ExtAction.cmdStartSession ∉ (start (StartOutcome.fullscreenFailed "boom") idleState).2
    ∧ ExtAction.fullscreenSet false ∈ (start (StartOutcome.fullscreenFailed "boom") idleState).2
    ∧ (start (StartOutcome.cmdFailed "boom") idleState).1.phase = Phase.idle
    ∧ (start (StartOutcome.cmdFailed "boom") idleState).1.errorText = "boom"
    ∧ ExtAction.fullscreenSet false ∈ (start (StartOutcome.cmdFailed "boom") idleState).2 :=
  c5_start_abort_paths idleState "boom" (by decide) (by decide) (by decide)

/-! ### C10 — local config guard -/

/-- C10: when any of digits-per-number, the millisecond duration or
total-numbers is not strictly positive, `start` records the guard error
text, issues no external action at all (no fullscreen attempt, no start
command) and leaves phase at idle. -/
theorem c10_config_guard :
    ∀ (s : AppState) (o : StartOutcome),
      s.phase = Phase.idle →
      (s.digitsPerNumber ≤ 0 ∨ s.numberDurationMs ≤ 0 ∨ s.totalNumbers ≤ 0) →
      (start o s).1.errorText = "Digits, duration, and total numbers must be > 0"
      ∧ (start o s).1.phase = Phase.idle
      ∧ (start o s).2 = [] := by
  intro s o hphase hbad
  have hg : startGuardFails (startReset s) = true := by
    simp [startGuardFails, startReset]
    omega
  refine ⟨?_, ?_, ?_⟩ <;> simp [start, hg] <;> simp [startReset, hphase]

/-- C10 witness: zero digits per number trips the guard. -/
theorem c10_witness :
    (start (StartOutcome.ok 1) { idleState with digitsPerNumber := 0 }).1.errorText
      = "Digits, duration, and total numbers must be > 0"
    ∧ (start (StartOutcome.ok 1) { idleState with digitsPerNumber := 0 }).1.phase = Phase.idle
    ∧ (start (StartOutcome.ok 1) { idleState with digitsPerNumber := 0 }).2 = [] :=
  c10_config_guard { idleState with digitsPerNumber := 0 } (StartOutcome.ok 1) rfl
    (Or.inl (by decide))

/-! ### C2 — cancellation vs. in-flight start -/

/-- C2 counterexample: issue `start` from the initial state, let `stop`
run to completion while the backend call is in flight, then deliver the
start response carrying session id 7. Phase stays idle, but the response
handler sets the session id to 7 even though the state changed since the
call was issued — the claimed relevance check does not exist. -/
theorem c2_cex_late_response_sets_session_id :
    (applyStartResponse 7 ((stop false (startIssue idleState)).1)).phase = Phase.idle
    ∧ ((stop false (startIssue idleState)).1).sessionId = none
    ∧ (applyStartResponse 7 ((stop false (startIssue idleState)).1)).sessionId = some 7 := by
  decide

/-- C2 amended: the start-response handler indeed never moves phase (so a
completed cancellation's idle persists), but it stores the response's
session id unconditionally — it checks neither phase nor session id
before applying its effect. The final conjunct ties the split-up
in-flight model to the monolithic `start`. -/
theorem c2_amended_response_no_relevance_check :
    ∀ (s : AppState) (sid : Int) (b : Bool),
      (applyStartResponse sid s).phase = s.phase
      ∧ (applyStartResponse sid s).sessionId = some sid
      ∧ (applyStartResponse sid ((stop b (startIssue s)).1)).phase = Phase.idle
      ∧ (startGuardFails (startReset s) = false →
          start (StartOutcome.ok sid) s
            = (applyStartResponse sid (startIssue s),
               [ExtAction.fullscreenForce, ExtAction.cmdStartSession])) := by
  intro s sid b
  refine ⟨rfl, rfl, rfl, fun hg => ?_⟩
  simp [start, hg]

/-- C2 amended witness at the initial state. -/
theorem c2_amended_witness :
    (applyStartResponse 7 idleState).phase = idleState.phase
    ∧ (applyStartResponse 7 idleState).sessionId = some 7
    ∧ (applyStartResponse 7 ((stop false (startIssue idleState)).1)).phase = Phase.idle
    ∧ start (StartOutcome.ok 7) idleState
        = (applyStartResponse 7 (startIssue idleState),
           [ExtAction.fullscreenForce, ExtAction.cmdStartSession]) := by
  obtain ⟨h1, h2, h3, h4⟩ := c2_amended_response_no_relevance_check idleState 7 false
  exact ⟨h1, h2, h3, h4 (by decide)⟩

/-! ### C6 — start has no phase re-check -/

/-- C6 counterexample: called in phase flashing, `start` is not a no-op:
it changes the state, moving phase to starting and wiping the typed
answer. -/
theorem c6_cex_start_not_noop :
    flashingState.phase ≠ Phase.idle
    ∧ (start (StartOutcome.ok 8) flashingState).1 ≠ flashingState
    ∧ (start (StartOutcome.ok 8) flashingState).1.phase = Phase.starting
    ∧ (start (StartOutcome.ok 8) flashingState).1.typedAnswer = "" := by
  decide

/-- C6 amended: `start` re-checks nothing about the phase; invoked while
phase is not idle (with a config passing the positivity guard) it still
resets the per-session fields, moves to starting, issues the start
command and records the returned session id. The only controller-side
guard is the disabled state of the calling control. -/
theorem c6_amended_start_ignores_phase :
    ∀ (s : AppState) (sid : Int),
      s.phase ≠ Phase.idle →
      0 < s.digitsPerNumber → 0 < s.numberDurationMs → 0 < s.totalNumbers →
      (start (StartOutcome.ok sid) s).1.phase = Phase.starting
      ∧ (start (StartOutcome.ok sid) s).1.sessionId = some sid
      ∧ (start (StartOutcome.ok sid) s).1.hasValidated = false
      ∧ (start (StartOutcome.ok sid) s).1.typedAnswer = ""
      ∧ ExtAction.cmdStartSession ∈ (start (StartOutcome.ok sid) s).2 := by
  intro s sid _ h1 h2 h3
  have hg : startGuardFails (startReset s) = false := by
    simp [startGuardFails, startReset]
    omega
  refine ⟨?_, ?_, ?_, ?_, ?_⟩ <;> simp [start, hg] <;>
    simp [startIssue, startReset, applyStartResponse]

/-- C6 amended witness at the flashing state. -/
theorem c6_amended_witness :
    (start (StartOutcome.ok 8) flashingState).1.phase = Phase.starting
    ∧ (start (StartOutcome.ok 8) flashingState).1.sessionId = some 8
    ∧ (start (StartOutcome.ok 8) flashingState).1.hasValidated = false
    ∧ (start (StartOutcome.ok 8) flashingState).1.typedAnswer = ""
    ∧ ExtAction.cmdStartSession ∈ (start (StartOutcome.ok 8) flashingState).2 :=
  c6_amended_start_ignores_phase flashingState 8 (by decide) (by decide) (by decide) (by decide)

/-! ### C7 — submission failure and the "has validated" flag -/

/-- C7 counterexample: with a parsable typed answer but no session id, the
submission fails locally with the no-active-session summary and no
backend call — but the "has validated" flag ends up marked, because the
handler sets it before the session-id check. -/
theorem c7_cex_flag_marked_on_failure :
    (validateTypedAnswer (SubmitOutcome.err "backend down") noSessionState).1.hasValidated = true
    ∧ (validateTypedAnswer (SubmitOutcome.err "backend down") noSessionState).2 = []
    ∧ (validateTypedAnswer (SubmitOutcome.err "backend down") noSessionState).1.validationSummary
      = "No active session id to validate."
    ∧ noSessionState.hasValidated = false := by
  decide

/-- C7 amended: the no-session failure indeed produces the
no-active-session summary without a backend call, and a parse failure
leaves the flag untouched with no call either; but once the typed answer
parses, `hasValidated` is set to true before the session-id check, so it
is marked both on the no-session failure and on a backend rejection. -/
theorem c7_amended_flag_set_before_checks :
    ∀ (s : AppState) (msg : String),
      ((parseUserSum s.typedAnswer).isSome = true → s.sessionId = none →
        (validateTypedAnswer (SubmitOutcome.err msg) s).1.validationSummary
          = "No active session id to validate."
        ∧ (validateTypedAnswer (SubmitOutcome.err msg) s).2 = []
        ∧ (validateTypedAnswer (SubmitOutcome.err msg) s).1.hasValidated = true)
      ∧ (∀ sid v, parseUserSum s.typedAnswer = some v → s.sessionId = some sid →
        (validateTypedAnswer (SubmitOutcome.err msg) s).1.validationSummary = msg
        ∧ (validateTypedAnswer (SubmitOutcome.err msg) s).1.hasValidated = true
        ∧ (validateTypedAnswer (SubmitOutcome.err msg) s).2
          = [ExtAction.cmdSubmitAnswer sid v])
      ∧ (parseUserSum s.typedAnswer = none →
        (validateTypedAnswer (SubmitOutcome.err msg) s).1.hasValidated = s.hasValidated
        ∧ (validateTypedAnswer (SubmitOutcome.err msg) s).2 = []) := by
  intro s msg
  refine ⟨?_, ?_, ?_⟩
  · intro hp hsid
    rcases hv : parseUserSum s.typedAnswer with _ | v
    · rw [hv] at hp; simp at hp
    · simp [validateTypedAnswer, hv, hsid]
  · intro sid v hv hsid
    simp [validateTypedAnswer, hv, hsid]
  · intro hv
    simp [validateTypedAnswer, hv]

/-- C7 amended witness at the no-session state. -/
theorem c7_amended_witness :
    (validateTypedAnswer (SubmitOutcome.err "m") noSessionState).1.validationSummary
      = "No active session id to validate."
    ∧ (validateTypedAnswer (SubmitOutcome.err "m") noSessionState).2 = []
    ∧ (validateTypedAnswer (SubmitOutcome.err "m") noSessionState).1.hasValidated = true :=
  (c7_amended_flag_set_before_checks noSessionState "m").1 (by decide) rfl

/-! ### C8 — the typed-answer parser -/

/-- Shape named by the strict-integer regex `^[+-]?\d+$`: an optional
single sign character followed by a nonempty run of ASCII digits. -/
def StrictIntShape (str : String) : Prop :=
  ∃ sign ds, str.data = sign ++ ds
    ∧ (sign = [] ∨ sign = ['+'] ∨ sign = ['-'])
    ∧ ds ≠ [] ∧ ∀ c ∈ ds, c.isDigit = true

/-- Correctness of the embedded regex test against the shape it denotes. -/
theorem isStrictIntChars_iff (cs : List Char) :
    isStrictIntChars cs = true ↔
      ∃ sign ds, cs = sign ++ ds
        ∧ (sign = [] ∨ sign = ['+'] ∨ sign = ['-'])
        ∧ ds ≠ [] ∧ ∀ c ∈ ds, c.isDigit = true := by
  constructor
  · intro h
    cases cs with
    | nil => simp [isStrictIntChars] at h
    | cons c cs =>
      by_cases h1 : c = '+'
      · subst h1
        cases cs with
        | nil => simp [isStrictIntChars] at h
        | cons d ds =>
          refine ⟨['+'], d :: ds, rfl, Or.inr (Or.inl rfl), List.cons_ne_nil d ds, ?_⟩
          simp [isStrictIntChars] at h
          simpa using h
      · by_cases h2 : c = '-'
        · subst h2
          cases cs with
          | nil => simp [isStrictIntChars] at h
          | cons d ds =>
            refine ⟨['-'], d :: ds, rfl, Or.inr (Or.inr rfl), List.cons_ne_nil d ds, ?_⟩
            simp [isStrictIntChars] at h
            simpa using h
        · refine ⟨[], c :: cs, rfl, Or.inl rfl, List.cons_ne_nil c cs, ?_⟩
          simp [isStrictIntChars, h1, h2] at h
          simpa using h
  · rintro ⟨sign, ds, rfl, hs, hne, hall⟩
    obtain ⟨d, ds', rfl⟩ : ∃ d ds', ds = d :: ds' := by
      cases ds with
      | nil => exact absurd rfl hne
      | cons d ds' => exact ⟨d, ds', rfl⟩
    have hd : d.isDigit = true := hall d (List.mem_cons_self d ds')
    rcases hs with rfl | rfl | rfl
    · have hp : d ≠ '+' := by
        intro h; rw [h] at hd; exact absurd hd (by decide)
      have hm : d ≠ '-' := by
        intro h; rw [h] at hd; exact absurd hd (by decide)
      simp only [List.nil_append]
      simp [isStrictIntChars, hp, hm]
      simpa using hall
    · simp only [List.cons_append, List.nil_append]
      simp [isStrictIntChars]
      simpa using hall
    · simp only [List.cons_append, List.nil_append]
      simp [isStrictIntChars]
      simpa using hall

/-- Acceptance of `parseUserSum` coincides with the strict-integer shape
of the trimmed, comma-stripped input. -/
theorem parseUserSum_isSome_iff (raw : String) :
    (parseUserSum raw).isSome = true ↔ StrictIntShape (stripCommas (jsTrim raw)) := by
  have hshape : StrictIntShape (stripCommas (jsTrim raw))
      ↔ isStrictInt (stripCommas (jsTrim raw)) = true := by
    rw [StrictIntShape, isStrictInt, isStrictIntChars_iff]
  rw [hshape]
  unfold parseUserSum
  by_cases h0 : stripCommas (jsTrim raw) = ""
  · have h2 : isStrictInt "" = false := rfl
    simp [h0, h2]
  · by_cases h1 : isStrictInt (stripCommas (jsTrim raw)) = true
    · simp [h0, h1]
    · simp only [Bool.not_eq_true] at h1
      simp [h0, h1]

/-- C8 counterexample: "4,2" is not rejected — the global comma strip runs
before the strict regex, so it parses to 42. -/
theorem c8_cex_comma_accepted :
    parseUserSum "4,2" = some 42 ∧ parseUserSum "4,2" ≠ none := by
  decide

/-- C8 amended: the parser accepts exactly the strings matching
`^[+-]?\d+$` after trimming and stripping commas; "42" parses to 42 and
"-17" to -17, but "4,2" is accepted as 42 (the comma strip is a
thousands-separator normalization that runs before the regex); empty or
garbage input parses to nothing, upon which the typed-answer submission
sets the local input-error summary and makes no backend call. -/
theorem c8_amended_parse_rule :
    (∀ raw, (parseUserSum raw).isSome = true ↔ StrictIntShape (stripCommas (jsTrim raw)))
    ∧ parseUserSum "42" = some 42
    ∧ parseUserSum "-17" = some (-17)
    ∧ parseUserSum "4,2" = some 42
    ∧ parseUserSum "" = none
    ∧ parseUserSum "abc" = none
    ∧ (∀ (s : AppState) (o : SubmitOutcome),
        parseUserSum s.typedAnswer = none →
        (validateTypedAnswer o s).2 = []
        ∧ (validateTypedAnswer o s).1.validationSummary
          = "Enter a single integer answer (e.g. 42 or -17).\n"
        ∧ (validateTypedAnswer o s).1.hasValidated = s.hasValidated) := by
  refine ⟨parseUserSum_isSome_iff, by decide, by decide, by decide, by decide, by decide, ?_⟩
  intro s o hv
  simp [validateTypedAnswer, hv]

/-- C8 amended witness: the no-backend-call clause at a concrete garbage
input. -/
theorem c8_amended_witness :
    (validateTypedAnswer (SubmitOutcome.err "m") { idleState with typedAnswer := "x7" }).2 = []
    ∧ (validateTypedAnswer (SubmitOutcome.err "m")
        { idleState with typedAnswer := "x7" }).1.validationSummary
      = "Enter a single integer answer (e.g. 42 or -17).\n"
    ∧ (validateTypedAnswer (SubmitOutcome.err "m")
        { idleState with typedAnswer := "x7" }).1.hasValidated
      = AppState.hasValidated { idleState with typedAnswer := "x7" } :=
  c8_amended_parse_rule.2.2.2.2.2.2 { idleState with typedAnswer := "x7" }
    (SubmitOutcome.err "m") (by decide)

/-! ### C9 — tick-derived seconds-left is never overwritten locally -/

/-- Auto-repeat-enabled variant of the part_002 initial state. -/
def tickReady : V2.St :=
  { V2.init with autoRepeatEnabled := true }

/-- C9: across every transition of the versioned controller (all six event
handlers and every operation), a numeric seconds-left in the post-state is
either the pre-state's value untouched or the payload of an
`auto_repeat_tick` event — no transition computes a seconds-left value
locally, so a tick-derived value can only be superseded by a newer tick or
cleared when the session is torn down or rolled over. -/
theorem c9_tick_only_numeric_source :
    ∀ (s : V2.St) (st : V2.Step) (v : Int),
      (V2.step st s).autoRepeatSecondsLeft = some v →
      s.autoRepeatSecondsLeft = some v
      ∨ ∃ p, st = V2.Step.autoRepeatTick p ∧ p.seconds_left = v := by
  intro s st v h
  cases st with
  | countdownTick value =>
    left
    simp [V2.step, V2.onCountdownTick, V2.resetForIncomingSessionIfComplete] at h
    by_cases hp : s.phase = Phase.complete
    · simp [hp] at h
    · simpa [hp] using h
  | showNumber p =>
    left
    simp [V2.step, V2.onShowNumber, V2.resetForIncomingSessionIfComplete] at h
    by_cases hp : s.phase = Phase.complete
    · simp [hp] at h
    · simpa [hp] using h
  | clearScreen =>
    left
    simpa [V2.step, V2.onClearScreen] using h
  | autoRepeatWaiting p =>
    left
    by_cases he : s.autoRepeatEnabled
    · simp [V2.step, V2.onAutoRepeatWaitingEv, V2.applyAutoRepeatWaiting, he] at h
    · simpa [V2.step, V2.onAutoRepeatWaitingEv, he] using h
  | autoRepeatTick p =>
    by_cases he : s.autoRepeatEnabled
    · right
      refine ⟨p, rfl, ?_⟩
      simp [V2.step, V2.onAutoRepeatTick, he] at h
      exact h
    · left
      simpa [V2.step, V2.onAutoRepeatTick, he] using h
  | sessionComplete p =>
    simp [V2.step, V2.onSessionComplete] at h
  | startOp o =>
    cases o with
    | fullscreenFailed msg => simp [V2.step, V2.start] at h
    | cmdFailed msg => simp [V2.step, V2.start] at h
    | ok resp =>
      simp [V2.step, V2.start, V2.applyStartSessionResponse] at h
      rcases har : resp.effective_auto_repeat with _ | ar <;> simp [har] at h
  | stopOp r =>
    simp [V2.step, V2.stop] at h
  | validateOp o =>
    left
    rcases hsid : s.sessionId with _ | sid
    · simpa [V2.step, V2.validateTypedAnswer, hsid] using h
    · cases o with
      | ok resp =>
        simp [V2.step, V2.validateTypedAnswer, hsid,
          V2.applySubmitAnswerResponse, V2.applyAutoRepeatWaiting] at h
        rcases haw : resp.auto_repeat_waiting with _ | w
        · simpa [haw] using h
        · simp [haw] at h
      | err msg =>
        simpa [V2.step, V2.validateTypedAnswer, hsid] using h
  | acknowledgeOp w =>
    left
    by_cases hsid : s.sessionId.isSome
    · rcases w with _ | p
      · simpa [V2.step, V2.acknowledge, hsid] using h
      · simp [V2.step, V2.acknowledge, hsid, V2.applyAutoRepeatWaiting] at h
    · simpa [V2.step, V2.acknowledge, hsid] using h
  | autoRepeatOffOp =>
    simp [V2.step, V2.autoRepeatOff] at h
  | autoRepeatOnOp =>
    left
    simpa [V2.step, V2.autoRepeatOn] using h
  | goHomeOp =>
    simp [V2.step, V2.goHome] at h

/-- C9 witness: a concrete tick on the enabled initial state stores its
payload's seconds-left, and the theorem attributes it to the tick. -/
theorem c9_witness :
    (V2.step (V2.Step.autoRepeatTick (AutoRepeatTickPayload.mk 1 9 3)) tickReady).autoRepeatSecondsLeft
      = some 9
    ∧ (tickReady.autoRepeatSecondsLeft = some 9
       ∨ ∃ p, V2.Step.autoRepeatTick (AutoRepeatTickPayload.mk 1 9 3) = V2.Step.autoRepeatTick p
           ∧ p.seconds_left = 9) :=
  ⟨by decide,
   c9_tick_only_numeric_source tickReady
     (V2.Step.autoRepeatTick (AutoRepeatTickPayload.mk 1 9 3)) 9 (by decide)⟩

end Flashspan
